import Mathlib

/-!
Verification of the slide-traversal decision engine of slide2pdf (src/main.js).

The markup snapshot is consumed only through the external selector-matcher
capability (`containsClass`), so a snapshot is embedded as the oracle
`String → Bool` telling which selectors match at least one element.
The functions below are shallow embeddings of the JavaScript functions of
the same names; the global configuration read via `config.get()` becomes an
explicit `Option` parameter (`endCase` and `navigate` keys), and JavaScript
`undefined` is embedded as `Option.none`.
-/

namespace Slide2pdf

/-- A markup snapshot, abstracted as the selector-match oracle provided by
the external HTML parsing capability. -/
def Markup : Type := String → Bool

/-- Embedding of `containsClass(pageContent, className)`: tests whether the
selector matches at least one element of the current markup. -/
def containsClass (pageContent : Markup) (className : String) : Bool :=
  pageContent className

/-- Embedding of `KeyValEnum.SELECTOR` from main.js. -/
def KeyValEnum.SELECTOR : Nat := 0

/-- Embedding of `KeyValEnum.ACTION` from main.js. -/
def KeyValEnum.ACTION : Nat := 1

/-- Embedding of `endLandslide(pageContent, end)`: end-of-deck test for
Landslide markup. -/
def endLandslide (pageContent : Markup) (endFlag : Bool) : Bool :=
  if !endFlag then
    !(containsClass pageContent ".slide.far-future" ||
      containsClass pageContent ".slide.future")
  else
    endFlag

/-- Embedding of `endReveal(pageContent, end)`: end-of-deck test for Reveal
markup. -/
def endReveal (pageContent : Markup) (endFlag : Bool) : Bool :=
  if !endFlag then
    (!containsClass pageContent ".future" &&
      !containsClass pageContent ".navigate-right.enabled" &&
      !containsClass pageContent ".navigate-down.enabled")
  else
    endFlag

/-- Embedding of `getOperator(operator)`: maps the configured literal
operator to the token spliced into the dynamically evaluated expression. -/
def getOperator (operator : String) : String :=
  if operator = "and" then "&&" else "||"

/-- Embedding of the JavaScript `eval` of the string `a + op + b` for the
two operator tokens `getOperator` can produce ("&&" and "||"). -/
def jsEvalOp (op : String) (a b : Bool) : Bool :=
  if op = "&&" then a && b else a || b

/-- The `endCase` object of the configuration file: a Custom Rule. -/
structure EndCase where
  operator : String
  reverse : Bool
  queries : List String

/-- Embedding of `isEnd(pageContent, end)`; the `endCase` configuration
read from the global config is the explicit parameter `endCaseObj`
(`none` embeds JavaScript `undefined`). -/
def isEnd (pageContent : Markup) (endFlag : Bool) (endCaseObj : Option EndCase) : Bool :=
  match endCaseObj with
  | some ec =>
      if !endFlag then
        let operatorObject := getOperator ec.operator
        let resTmp0 := !(jsEvalOp operatorObject true false)
        let resTmp := ec.queries.foldl
          (fun resTmp query =>
            let request := containsClass pageContent query
            if ec.reverse then jsEvalOp operatorObject resTmp (!request)
            else jsEvalOp operatorObject resTmp request)
          resTmp0
        resTmp || false
      else
        endFlag
  | none =>
      if !endFlag then
        endReveal pageContent endFlag && endLandslide pageContent endFlag
      else
        endFlag

/-- Embedding of `validNavigate(navigationList)`. Note the source loop runs
`i` from `0` to `navigationList.length - 2`, embedded here verbatim as a
conjunction over `List.range (l.length - 1)`. -/
def validNavigate (navigationList : Option (List (List String))) : Bool :=
  match navigationList with
  | some l =>
      let condition1 := decide (1 ≤ l.length)
      let condition2 :=
        if condition1 then
          (List.range (l.length - 1)).all (fun i => (l.getD i []).length == 2)
        else
          true
      condition1 && condition2
  | none => false

/-- Embedding of the scanning `while` loop of `nextslide`: `actionKey`
starts as the empty string, is set to `entry[ACTION]` on the first match,
and the loop keeps running while `actionKey == ""`. `none` embeds the
JavaScript `undefined` produced by indexing a too-short entry. -/
def navLoop (pageContent : Markup) : List (List String) → Option String
  | [] => some ""
  | entry :: rest =>
      if containsClass pageContent (entry.getD KeyValEnum.SELECTOR "") then
        match entry.get? KeyValEnum.ACTION with
        | some a => if a == "" then navLoop pageContent rest else some a
        | none => none
      else
        navLoop pageContent rest

/-- Embedding of `nextslide(pageContent)`; the `navigate` configuration is
the explicit parameter `navigationList`. -/
def nextslide (pageContent : Markup) (navigationList : Option (List (List String))) :
    Option String :=
  let isDefault := validNavigate navigationList
  if !isDefault then
    some (if containsClass pageContent "navigate-down enabled" then "ArrowDown"
          else "ArrowRight")
  else
    let actionKey := navLoop pageContent (navigationList.getD [])
    if actionKey == some "" then some "ArrowRight" else actionKey

/-- A JavaScript value that is either a string or a number, as returned by
`padToThree`. -/
inductive JsVal where
  | str : String → JsVal
  | num : Int → JsVal
deriving DecidableEq

/-- Embedding of the JavaScript `s.slice(-3)` on the strings produced in
`padToThree`: the last three characters of `s` (all of `s` when shorter). -/
def jsSliceLast3 (s : String) : String :=
  String.mk (s.data.drop (s.data.length - 3))

/-- String coercion applied when a `JsVal` is spliced into the screenshot
filename. -/
def jsValToString : JsVal → String
  | .str s => s
  | .num n => toString n

/-- Embedding of `padToThree(number)`: numbers up to 999 become the last
three characters of `"00" + number`; larger numbers are returned unchanged
(as numbers). -/
def padToThree (number : Int) : JsVal :=
  if number ≤ 999 then JsVal.str (jsSliceLast3 ("00" ++ toString number))
  else JsVal.num number

/-- Embedding of the `while (!end)` traversal loop of the main async block:
`markupAt pos` is the snapshot rendered after `pos - 1` navigation steps,
`i` is the screenshot counter, `endFlag` the `end` variable and `captured`
the indices captured so far. Keyboard navigation advances `pos` by one.
`fuel` bounds the number of iterations, since the source loop need not
terminate. -/
def captureLoop (markupAt : Nat → Markup) (endCaseObj : Option EndCase) :
    Nat → Nat → Nat → Bool → List Nat → List Nat
  | 0, _, _, _, captured => captured
  | fuel + 1, i, pos, endFlag, captured =>
      if endFlag then captured
      else
        let i' := i + 1
        let endFlag' := isEnd (markupAt pos) endFlag endCaseObj
        if endFlag' then
          captureLoop markupAt endCaseObj fuel i' pos endFlag' captured
        else
          captureLoop markupAt endCaseObj fuel i' (pos + 1) endFlag' (captured ++ [i'])

/-- Embedding of the traversal run: the initial snapshot is fetched, `end`
is evaluated once, slide 1 is captured unconditionally, then the capture
loop runs. -/
def runTraversal (markupAt : Nat → Markup) (endCaseObj : Option EndCase) (fuel : Nat) :
    List Nat :=
  let endFlag := isEnd (markupAt 1) false endCaseObj
  captureLoop markupAt endCaseObj fuel 1 1 endFlag [1]

/-! ## Helper lemmas -/

/-- A left fold by conjunction computes `List.all`. -/
theorem foldl_and_eq_all {α : Type} (f : α → Bool) :
    ∀ (l : List α) (b : Bool), l.foldl (fun acc q => acc && f q) b = (b && l.all f) := by
  intro l
  induction l with
  | nil => intro b; simp
  | cons a l ih => intro b; simp [List.foldl_cons, ih, List.all_cons, Bool.and_assoc]

/-- A left fold by disjunction computes `List.any`. -/
theorem foldl_or_eq_any {α : Type} (f : α → Bool) :
    ∀ (l : List α) (b : Bool), l.foldl (fun acc q => acc || f q) b = (b || l.any f) := by
  intro l
  induction l with
  | nil => intro b; simp
  | cons a l ih => intro b; simp [List.foldl_cons, ih, List.any_cons, Bool.or_assoc]

/-- Once the end flag is set, `isEnd` returns true whatever the markup and
configuration. -/
theorem isEnd_of_endFlag (m : Markup) (endCaseObj : Option EndCase) :
    isEnd m true endCaseObj = true := by
  cases endCaseObj <;> rfl

/-! ## Claim theorems -/

/-- Claim C1: with a Custom Rule configured, a non-empty queries list and
`alreadyEnded = false`, `isEnd` folds the per-query match results (each
inverted when `reverse` is set) under the configured operator, starting
from the operator's identity: for operator `and` it is the conjunction of
the (possibly reversed) matches, for operator `or` their disjunction. -/
theorem isEnd_customRule_fold (m : Markup) (ec : EndCase) (hq : ec.queries ≠ []) :
    (ec.operator = "and" →
      isEnd m false (some ec) =
        ec.queries.all (fun q => if ec.reverse then !(m q) else m q)) ∧
    (ec.operator = "or" →
      isEnd m false (some ec) =
        ec.queries.any (fun q => if ec.reverse then !(m q) else m q)) := by
  obtain ⟨op, rev, qs⟩ := ec
  constructor
  · intro hop
    subst hop
    cases rev <;>
      simp [isEnd, getOperator, jsEvalOp, containsClass, foldl_and_eq_all]
  · intro hop
    subst hop
    cases rev <;>
      simp [isEnd, getOperator, jsEvalOp, containsClass, foldl_or_eq_any]

/-- Witness for C1: a single-query `and` rule with `reverse = true` on a
markup where the selector is absent yields `isEnd = true`. -/
theorem isEnd_customRule_fold_witness :
    isEnd (fun _ => false) false (some ⟨"and", true, [".slide.future"]⟩) = true :=
  (((isEnd_customRule_fold (fun _ => false) ⟨"and", true, [".slide.future"]⟩
    (by decide)).1) rfl).trans (by decide)

/-- Claim C2: with no Custom Rule and `alreadyEnded = false`, `isEnd` is
true exactly when all five framework-default selectors are absent
(`.slide.far-future`, `.slide.future` for Landslide; `.future`,
`.navigate-right.enabled`, `.navigate-down.enabled` for Reveal); in
particular a markup matching no selector at all yields true. -/
theorem isEnd_frameworkDefault :
    (∀ m : Markup, isEnd m false none =
      (!(m ".slide.far-future") && !(m ".slide.future") && !(m ".future") &&
        !(m ".navigate-right.enabled") && !(m ".navigate-down.enabled"))) ∧
    isEnd (fun _ => false) false none = true := by
  constructor
  · intro m
    cases h1 : m ".slide.far-future" <;> cases h2 : m ".slide.future" <;>
      cases h3 : m ".future" <;> cases h4 : m ".navigate-right.enabled" <;>
      cases h5 : m ".navigate-down.enabled" <;>
      simp [isEnd, endReveal, endLandslide, containsClass, h1, h2, h3, h4, h5]
  · decide

/-- Claim C3: `isEnd` called with `alreadyEnded = true` returns true for
every markup and every configuration, so end detection is monotonic once
the result is fed back as `alreadyEnded`. -/
theorem isEnd_monotone :
    (∀ (m : Markup) (endCaseObj : Option EndCase), isEnd m true endCaseObj = true) ∧
    (∀ (m m' : Markup) (e : Bool) (c c' : Option EndCase),
      isEnd m e c = true → isEnd m' (isEnd m e c) c' = true) := by
  refine ⟨fun m c => isEnd_of_endFlag m c, fun m m' e c c' h => ?_⟩
  rw [h]
  exact isEnd_of_endFlag m' c'

/-- Witness for C3: once an empty markup has made `isEnd` true under the
framework defaults, feeding that result back keeps it true. -/
theorem isEnd_monotone_witness :
    isEnd (fun _ => false) (isEnd (fun _ => false) false none) none = true :=
  isEnd_monotone.2 (fun _ => false) (fun _ => false) false none none (by decide)

/-- Claim C4 (code evaluation at the failing input): `validNavigate`
checks only entries `0 .. length - 2`, so the one-entry table `[[".a"]]`
whose single (hence last) entry has one element is judged valid; with a
markup matching `.a`, `nextslide` then scans the table and returns the
JavaScript `undefined` (embedded as `none`) taken from the missing action
cell, instead of the Default Navigation Rule result it returns when the
table is absent. -/
theorem validNavigate_lastEntry_unchecked :
    validNavigate (some [[".a"]]) = true ∧
    nextslide (fun s => s == ".a") (some [[".a"]]) = none ∧
    nextslide (fun s => s == ".a") none = some "ArrowRight" := by
  decide

/-- Claim C5 counterexample: a Custom Rule with an empty queries list and
operator `or` makes `isEnd` return false on the empty markup, while the
Framework Default evaluation the claim prescribes returns true there, so
no fallback takes place. -/
theorem isEnd_emptyQueries_cex :
    isEnd (fun _ => false) false (some ⟨"or", false, []⟩) = false ∧
    isEnd (fun _ => false) false none = true := by
  decide

/-- Claim C5 (amended): a configured Custom Rule with an empty queries
list does not fall back to the Framework Default; `isEnd` returns the
fold's starting identity element — true for operator `and`, false for any
other operator string — for every markup. -/
theorem isEnd_emptyQueries_identity (m : Markup) (op : String) (rev : Bool) :
    isEnd m false (some ⟨op, rev, []⟩) = (op == "and") := by
  by_cases h : op = "and" <;>
    simp [isEnd, getOperator, jsEvalOp, h]

/-- Claim C7: when no valid Navigation Table is configured, `nextslide`
applies the Default Navigation Rule: `ArrowDown` exactly when the combined
selector "navigate-down enabled" matches, else `ArrowRight`. -/
theorem nextslide_defaultRule (m : Markup) (navigationList : Option (List (List String)))
    (h : validNavigate navigationList = false) :
    nextslide m navigationList =
      some (if m "navigate-down enabled" then "ArrowDown" else "ArrowRight") := by
  simp [nextslide, h, containsClass]

/-- Witness for C7: with an absent table and a markup matching
"navigate-down enabled", `nextslide` returns `ArrowDown`. -/
theorem nextslide_defaultRule_witness :
    nextslide (fun s => s == "navigate-down enabled") none = some "ArrowDown" :=
  (nextslide_defaultRule (fun s => s == "navigate-down enabled") none rfl).trans
    (by decide)

/-- Claim C8: a Custom Rule whose operator string is not "and" is
evaluated exactly as if the operator were "or", for every markup and every
`alreadyEnded` flag. -/
theorem isEnd_unknownOperator_or (m : Markup) (endFlag : Bool) (ec : EndCase)
    (h : ec.operator ≠ "and") :
    isEnd m endFlag (some ec) =
      isEnd m endFlag (some ⟨"or", ec.reverse, ec.queries⟩) := by
  cases endFlag with
  | true => rfl
  | false =>
      obtain ⟨op, rev, qs⟩ := ec
      simp only at h
      simp [isEnd, getOperator, h]

/-- Witness for C8: the unrecognized operator "xor" behaves as "or". -/
theorem isEnd_unknownOperator_or_witness :
    isEnd (fun _ => false) false (some ⟨"xor", true, [".q"]⟩) =
      isEnd (fun _ => false) false (some ⟨"or", true, [".q"]⟩) :=
  isEnd_unknownOperator_or (fun _ => false) false ⟨"xor", true, [".q"]⟩ (by decide)

/-- The scanning loop of `nextslide`, on tables whose entries all have
exactly a selector and an action, returns the action of the first entry
whose selector matches and whose action is non-empty, and the sentinel
empty string when there is none. -/
theorem navLoop_find (m : Markup) :
    ∀ (t : List (List String)), (∀ e ∈ t, e.length = 2) →
      navLoop m t =
        some (((t.find? (fun e => m (e.getD 0 "") && !(e.getD 1 "" == ""))).map
          (fun e => e.getD 1 "")).getD "") := by
  intro t
  induction t with
  | nil => intro _; rfl
  | cons e rest ih =>
      intro hwf
      have he : e.length = 2 := hwf e (List.mem_cons_self e rest)
      obtain ⟨s, a, rfl⟩ := List.length_eq_two.mp he
      have hrest := fun x hx => hwf x (List.mem_cons_of_mem _ hx)
      by_cases hm : m s
      · by_cases ha : a = ""
        · subst ha
          simp [navLoop, containsClass, KeyValEnum.SELECTOR, KeyValEnum.ACTION,
            hm, List.find?_cons, ih hrest]
        · simp [navLoop, containsClass, KeyValEnum.SELECTOR, KeyValEnum.ACTION,
            hm, ha, List.find?_cons]
      · simp [navLoop, containsClass, KeyValEnum.SELECTOR, KeyValEnum.ACTION,
          hm, List.find?_cons, ih hrest]

/-- Claim C6 counterexample: the valid table `[[".a", ""], [".b", "Y"]]`
on a markup matching both selectors makes `nextslide` return `"Y"`, not
the action `""` of the first matching entry: an entry whose action is the
empty string collides with the loop's sentinel and is skipped. -/
theorem nextslide_emptyAction_cex :
    validNavigate (some [[".a", ""], [".b", "Y"]]) = true ∧
    containsClass (fun s => s == ".a" || s == ".b") ".a" = true ∧
    nextslide (fun s => s == ".a" || s == ".b") (some [[".a", ""], [".b", "Y"]]) =
      some "Y" ∧
    ("Y" : String) ≠ "" := by
  decide

/-- Claim C6 (amended): for every valid Navigation Table of
selector/action pairs, `nextslide` scans in order and returns the action
of the first entry whose selector matches and whose action is a non-empty
string (matching entries carrying the empty-string action are skipped);
when no such entry exists it returns `ArrowRight`. -/
theorem nextslide_table_scan (m : Markup) (t : List (List String))
    (hwf : ∀ e ∈ t, e.length = 2) (hv : validNavigate (some t) = true) :
    nextslide m (some t) =
      some (((t.find? (fun e => m (e.getD 0 "") && !(e.getD 1 "" == ""))).map
        (fun e => e.getD 1 "")).getD "ArrowRight") := by
  have hnav := navLoop_find m t hwf
  cases hf : t.find? (fun e => m (e.getD 0 "") && !(e.getD 1 "" == "")) with
  | none =>
      rw [hf] at hnav
      simp only [Option.map_none', Option.getD_none] at hnav
      simp [nextslide, hv, hnav]
  | some e =>
      rw [hf] at hnav
      simp only [Option.map_some', Option.getD_some] at hnav
      have hp := List.find?_some hf
      have hne : ¬(e.getD 1 "" = "") := by
        intro hq
        rw [hq] at hp
        simp at hp
      simp only [List.getD_eq_getElem?_getD] at hne
      simp [nextslide, hv, hnav, hne]

/-- Witness for C6 (amended): the spec's priority example — both selectors
match, the first entry wins. -/
theorem nextslide_table_scan_witness :
    nextslide (fun s => s == ".a" || s == ".b") (some [[".a", "X"], [".b", "Y"]]) =
      some "X" :=
  (nextslide_table_scan (fun s => s == ".a" || s == ".b") [[".a", "X"], [".b", "Y"]]
    (by decide) (by decide)).trans (by decide)

/-- Once the end flag is true, the capture loop exits without capturing. -/
theorem captureLoop_ended (markupAt : Nat → Markup) (c : Option EndCase) :
    ∀ (fuel i pos : Nat) (captured : List Nat),
      captureLoop markupAt c fuel i pos true captured = captured := by
  intro fuel
  cases fuel <;> intros <;> rfl

/-- Capture-loop invariant: starting from the captured indices
`1, …, i`, the loop only ever extends them to `1, …, k` for some
`k ≥ i` — contiguous, increasing by one, no gaps. -/
theorem captureLoop_range (markupAt : Nat → Markup) (c : Option EndCase) :
    ∀ (fuel i pos : Nat) (e : Bool),
      ∃ k, i ≤ k ∧
        captureLoop markupAt c fuel i pos e (List.range' 1 i) = List.range' 1 k := by
  intro fuel
  induction fuel with
  | zero => intro i pos e; exact ⟨i, Nat.le_refl i, rfl⟩
  | succ fuel ih =>
      intro i pos e
      cases e with
      | true => exact ⟨i, Nat.le_refl i, rfl⟩
      | false =>
          by_cases he : isEnd (markupAt pos) false c = true
          · refine ⟨i, Nat.le_refl i, ?_⟩
            simp [captureLoop, he, captureLoop_ended]
          · have he' : isEnd (markupAt pos) false c = false :=
              Bool.not_eq_true _ ▸ eq_false_of_ne_true he
            have hrw : List.range' 1 i ++ [i + 1] = List.range' 1 (i + 1) := by
              rw [List.range'_concat]
              simp [Nat.add_comm]
            obtain ⟨k, hk, hres⟩ := ih (i + 1) (pos + 1) false
            refine ⟨k, Nat.le_trans (Nat.le_succ i) hk, ?_⟩
            rw [← hres, ← hrw]
            simp [captureLoop, he']

/-- Claim C9: every traversal run captures exactly the contiguous indices
`1, …, k` for some `k ≥ 1` (slide 1 is always captured, indices grow by
exactly one, never decrease, and have no gaps); and for a three-slide deck
whose end condition is false on slides 1 and 2 and true on slide 3, the
captured indices are exactly `[1, 2, 3]`. -/
theorem runTraversal_contiguous :
    (∀ (markupAt : Nat → Markup) (c : Option EndCase) (fuel : Nat),
      ∃ k, 1 ≤ k ∧ runTraversal markupAt c fuel = List.range' 1 k) ∧
    runTraversal (fun pos => fun s => decide (pos < 3 ∧ s = ".future")) none 5 =
      [1, 2, 3] := by
  constructor
  · intro markupAt c fuel
    have h := captureLoop_range markupAt c fuel 1 1 (isEnd (markupAt 1) false c)
    have h1 : List.range' 1 1 = [1] := rfl
    rw [h1] at h
    simpa [runTraversal] using h
  · decide

/-- The digit-printing core never shrinks its accumulator. -/
theorem toDigitsCore_len_ge (b : Nat) :
    ∀ (f n : Nat) (ds : List Char), ds.length ≤ (Nat.toDigitsCore b f n ds).length := by
  intro f
  induction f with
  | zero => intro n ds; simp [Nat.toDigitsCore]
  | succ f ih =>
      intro n ds
      simp only [Nat.toDigitsCore]
      by_cases h : n / b = 0
      · simp [h]
      · simp only [h, if_false]
        exact Nat.le_trans (Nat.le_succ ds.length) (ih (n / b) ((n % b).digitChar :: ds))

/-- The decimal representation of a natural number is non-empty. -/
theorem repr_length_pos (n : Nat) : 1 ≤ (Nat.repr n).length := by
  show 1 ≤ (Nat.toDigits 10 n).length
  simp only [Nat.toDigits, Nat.toDigitsCore]
  by_cases h : n / 10 = 0
  · simp [h]
  · simp only [h, if_false]
    exact toDigitsCore_len_ge 10 n (n / 10) [(n % 10).digitChar]

/-- The decimal representation of an integer is non-empty. -/
theorem int_toString_length_pos (n : Int) : 1 ≤ (toString n).length := by
  cases n with
  | ofNat m => exact repr_length_pos m
  | negSucc m =>
      show 1 ≤ ("-" ++ Nat.repr m.succ).length
      rw [String.length_append]
      have h1 : ("-" : String).length = 1 := rfl
      omega

/-- Claim C10: for every `n ≤ 999`, `padToThree` returns the 3-character
string made of the last three characters of `"00"` concatenated with the
decimal print of `n`; for every `n ≥ 1000` it returns the number
unchanged. Consequently filenames are zero-padded only up to 999, and at
slide 1000 the filename `"1000"` sorts lexicographically before `"999"`,
breaking the agreement between filename order and capture order. -/
theorem padToThree_spec (n : Int) :
    (n ≤ 999 →
      padToThree n = JsVal.str (jsSliceLast3 ("00" ++ toString n)) ∧
      (jsSliceLast3 ("00" ++ toString n)).length = 3) ∧
    (1000 ≤ n → padToThree n = JsVal.num n) ∧
    (jsValToString (padToThree 999) = "999" ∧
      jsValToString (padToThree 1000) = "1000" ∧
      ("1000" : String).data < ("999" : String).data) := by
  refine ⟨fun h => ⟨by simp [padToThree, h], ?_⟩, fun h => ?_, by decide⟩
  · have hlen : 3 ≤ ("00" ++ toString n).data.length := by
      rw [String.data_append]
      have h1 := int_toString_length_pos n
      have h2 : (toString n).length = (toString n).data.length := rfl
      have h3 : ("00" : String).data.length = 2 := rfl
      rw [List.length_append]
      omega
    show (("00" ++ toString n).data.drop (("00" ++ toString n).data.length - 3)).length = 3
    rw [List.length_drop]
    omega
  · have h' : ¬(n ≤ 999) := by omega
    simp [padToThree, h']

/-- Witness for C10: `padToThree` pads 7 to `"007"` and leaves 1000
unchanged. -/
theorem padToThree_spec_witness :
    padToThree 7 = JsVal.str "007" ∧ padToThree 1000 = JsVal.num 1000 :=
  ⟨(((padToThree_spec 7).1 (by decide)).1).trans (by decide),
    (padToThree_spec 1000).2.1 (by decide)⟩

end Slide2pdf
